import Mathlib

/-!
Verification of the reading-analytics dashboard in src/app.py.

The source is a single-file Dash application.  This development shallowly
embeds its core logic:

* a `Book` is one row of the pre-filtered dataframe `filtered` (the rows with
  `Date Added` in 2025 and shelf read/currently-reading; that upstream data
  selection is a collaborator concern and is not modelled);
* the pandas month period of `Date Added` (column "Month Read") is modelled by
  an injective numeric month key `monthKey b = b.dateAdded / 31`, where
  `dateAdded` is a day ordinal; the period-to-string conversion is an
  injective renaming and is dropped;
* floating point proportions are modelled with exact rationals `ℚ`; the
  spec's tolerance of 1e-9 is subsumed by exact equalities (division by zero
  yields 0 in `ℚ` where pandas would yield NaN/inf; the theorems below make
  the zero-denominator situations explicit);
* the two Dash callbacks `update_table` and `update_marimekko` become pure
  functions; the Dash wiring (a slider event re-fires `update_table` with the
  *retained* `clickData` of the last click, a click event does not re-fire
  `update_marimekko` because its only Input is the slider) is modelled by the
  `step` transition function on `AppState`.
-/

/-- One row of the dataframe `filtered` in src/app.py.  `dateAdded` is a day
ordinal standing for the "Date Added" timestamp; `rating` is the "My Rating"
column (`none` = NaN); `pages` is "Number of Pages". -/
structure Book where
  title : String
  author : String
  dateAdded : Nat
  rating : Option ℚ
  pages : Nat
deriving DecidableEq

/-- The "Month Read" key derived from "Date Added"
(`to_period("M")`, modelled as a monotone, month-granular map on ordinals). -/
def monthKey (b : Book) : Nat := b.dateAdded / 31

/-- Argument of `rating_label_from_value` in src/app.py: a pandas cell, which
is NaN, a numeric value, or something that `float()` rejects. -/
inductive RVal where
  | na : RVal
  | num (q : ℚ) : RVal
  | nonNumeric : RVal
deriving DecidableEq

/-- Embeds Python `f"{val:.1f}"` for a rational value: round to one decimal
digit and print sign, integer part, '.', digit.  (Ties are rounded half-up
here; CPython formats the underlying binary double with round-half-even, a
difference only at exact .x5 ties, which no claim exercises.) -/
def formatOneDecimal (q : ℚ) : String :=
  let n : ℤ := round (|q| * 10)
  let s := toString (n / 10) ++ "." ++ toString (n % 10)
  if q < 0 then "-" ++ s else s

/-- `rating_label_from_value` from src/app.py, lines 61-70: NaN and
non-convertible values map to "Unrated"; an integer-valued number `n` maps to
`"n⭐"`; a non-integer number maps to its one-decimal rendering plus ⭐. -/
def rating_label_from_value : RVal → String
  | RVal.na => "Unrated"
  | RVal.nonNumeric => "Unrated"
  | RVal.num q =>
      if q.den = 1 then toString q.num ++ "⭐"
      else formatOneDecimal q ++ "⭐"

/-- View of the `My Rating` cell of a book as an `RVal`. -/
def ratingToRVal : Option ℚ → RVal
  | none => RVal.na
  | some q => RVal.num q

/-- The "Rating Label" column of src/app.py, line 73. -/
def ratingLabelOf (b : Book) : String :=
  rating_label_from_value (ratingToRVal b.rating)

/-- Line 24 of src/app.py: `filtered.loc[filtered["My Rating"] == 0,
"My Rating"] = np.nan` applied to one row. -/
def normalizeBook (b : Book) : Book :=
  if b.rating = some 0 then { b with rating := none } else b

/-- The rating normalization applied to the whole dataset, before any
grouping or labelling (src/app.py line 24 precedes lines 30-109). -/
def preprocess (l : List Book) : List Book := l.map normalizeBook

/-- The page-range filter `filtered["Number of Pages"].between(low, high,
inclusive="both")` used at src/app.py lines 386-388 and 452-454. -/
def rangeFilter (l : List Book) (low high : ℤ) : List Book :=
  l.filter (fun b => decide (low ≤ (b.pages : ℤ)) && decide ((b.pages : ℤ) ≤ high))

/-- One record of the `books-table` data: the five projected columns of
src/app.py lines 393-400. -/
structure TableRow where
  monthRead : Nat
  title : String
  author : String
  rating : Option ℚ
  pages : Nat
deriving DecidableEq

/-- Projection of a dataframe row to a table record. -/
def toRow (b : Book) : TableRow :=
  { monthRead := monthKey b, title := b.title, author := b.author
    rating := b.rating, pages := b.pages }

/-- The dictionary stored in `selection-store` (src/app.py line 409). -/
structure Selection where
  month : Nat
  rating : String
deriving DecidableEq

/-- The identifying payload of one clicked point: `customdata[0]` (month) and
`customdata[4]` (rating label) of src/app.py lines 405-406. -/
structure ClickPoint where
  month : Nat
  ratingLabel : String
deriving DecidableEq

/-- Callback 1 of src/app.py (`update_table`, lines 382-441): recompute the
table rows and the new stored selection from the click data, the slider
range, and the previously stored selection. -/
def update_table (l : List Book) (low high : ℤ)
    (clickData : Option (List ClickPoint)) (stored : Option Selection) :
    List TableRow × Option Selection :=
  let df_page := rangeFilter l low high
  match clickData with
  | none => (df_page.map toRow, none)
  | some [] => (df_page.map toRow, none)
  | some (point :: _) =>
    let current : Selection := { month := point.month, rating := point.ratingLabel }
    if stored = some current then
      (df_page.map toRow, none)
    else
      ((df_page.filter (fun b =>
          decide (monthKey b = current.month) && decide (ratingLabelOf b = current.rating))).map toRow,
        some current)

/-- The distinct group keys of a dataframe `groupby`, for an arbitrary key
function (order of the keys is irrelevant to every property below; the month
keys are re-sorted by first date and the label keys are only summed over). -/
def keyList {κ : Type} [DecidableEq κ] (key : Book → κ) : List Book → List κ
  | [] => []
  | b :: l =>
      if key b ∈ keyList key l then keyList key l else key b :: keyList key l

/-- The month keys present in a (filtered) dataset. -/
def monthKeys (fl : List Book) : List Nat := keyList monthKey fl

/-- The rows of one month group (`groupby("Month Read")`). -/
def monthGroup (fl : List Book) (m : Nat) : List Book :=
  fl.filter (fun b => decide (monthKey b = m))

/-- `month_pages`: total pages of one month group (src/app.py lines 467-472). -/
def monthPages (fl : List Book) (m : Nat) : Nat :=
  ((monthGroup fl m).map (fun b => b.pages)).sum

/-- `first_date`: earliest "Date Added" in a month group (lines 475-481). -/
def firstDate (fl : List Book) (m : Nat) : Nat :=
  (((monthGroup fl m).map (fun b => b.dateAdded)).min?).getD 0

/-- Insertion step of the sort used to model `sort_values` /
sorted `groupby` keys. -/
def insertLe (le : Nat → Nat → Bool) (m : Nat) : List Nat → List Nat
  | [] => [m]
  | k :: ks => if le m k then m :: k :: ks else k :: insertLe le m ks

/-- Insertion sort on numeric keys.  The comparison keys used below are
distinct, so this agrees with pandas' stable sort. -/
def sortLe (le : Nat → Nat → Bool) : List Nat → List Nat
  | [] => []
  | k :: ks => insertLe le k (sortLe le ks)

/-- The month keys sorted chronologically
(`month_totals.sort_values("first_date")`, line 487). -/
def sortedMonths (fl : List Book) : List Nat :=
  sortLe (fun a b => decide (firstDate fl a ≤ firstDate fl b)) (monthKeys fl)

/-- `grand_total_pages = month_totals["month_pages"].sum()` (line 490). -/
def grandTotalN (fl : List Book) : Nat :=
  ((sortedMonths fl).map (monthPages fl)).sum

/-- `width_prop = month_pages / grand_total_pages` (line 491). -/
def widthOf (fl : List Book) (m : Nat) : ℚ :=
  (monthPages fl m : ℚ) / (grandTotalN fl : ℚ)

/-- One row of the `month_totals` dataframe after lines 467-496 of
src/app.py: month key, page total, width proportion and x layout. -/
structure MonthRow where
  key : Nat
  pages : Nat
  widthProp : ℚ
  xStart : ℚ
  xEnd : ℚ
  xCenter : ℚ
deriving DecidableEq

/-- Builds the `month_totals` rows with the running x offset `a`, embedding
`x_start = width_prop.cumsum().shift(fill_value=0)`,
`x_end = x_start + width_prop`, `x_center = (x_start + x_end) / 2`
(src/app.py lines 494-496). -/
def buildRows (fl : List Book) : ℚ → List Nat → List MonthRow
  | _, [] => []
  | a, m :: ms =>
      { key := m, pages := monthPages fl m, widthProp := widthOf fl m,
        xStart := a, xEnd := a + widthOf fl m,
        xCenter := (a + (a + widthOf fl m)) / 2 } :: buildRows fl (a + widthOf fl m) ms

/-- The full `month_totals` dataframe of `update_marimekko`, in
`first_date`-ascending order. -/
def month_totals_of (fl : List Book) : List MonthRow :=
  buildRows fl 0 (sortedMonths fl)

/-- The rows of one (month, rating label) group
(`groupby(["Month Read", "Rating Label"])`). -/
def segGroup (fl : List Book) (m : Nat) (r : String) : List Book :=
  (monthGroup fl m).filter (fun b => decide (ratingLabelOf b = r))

/-- `pages`: total pages of one (month, rating) segment (lines 508-513). -/
def segPages (fl : List Book) (m : Nat) (r : String) : Nat :=
  ((segGroup fl m r).map (fun b => b.pages)).sum

/-- `height = pages / month_pages` of one segment (line 523). -/
def segHeight (fl : List Book) (m : Nat) (r : String) : ℚ :=
  (segPages fl m r : ℚ) / (monthPages fl m : ℚ)

/-- `summarize_books` (lines 76-79, reused at 499-505): the books of one
segment, one per line, in input order. -/
def booksText (fl : List Book) (m : Nat) (r : String) : String :=
  String.intercalate ("<br>")
    ((segGroup fl m r).map (fun b => b.title ++ " (" ++ b.author ++ ")"))

/-- The rating labels present in a list of rows. -/
def labelKeys (g : List Book) : List String := keyList ratingLabelOf g

/-- The month keys in ascending key order (pandas `groupby` sorts keys;
the year-month strings sort chronologically). -/
def monthsByKey (fl : List Book) : List Nat :=
  sortLe (fun a b => decide (a ≤ b)) (monthKeys fl)

/-- The `x_center` merged into a segment row by month key (lines 516-520). -/
def xCenterOf (fl : List Book) (m : Nat) : ℚ :=
  match (month_totals_of fl).find? (fun row => decide (row.key = m)) with
  | some row => row.xCenter
  | none => 0

/-- The `width_prop` merged into a segment row by month key (lines 516-520). -/
def widthPropOf (fl : List Book) (m : Nat) : ℚ :=
  match (month_totals_of fl).find? (fun row => decide (row.key = m)) with
  | some row => row.widthProp
  | none => 0

/-- The months that have at least one record with the given rating label:
the rows of `agg[agg["Rating Label"] == label]`, in month order. -/
def subMonths (fl : List Book) (r : String) : List Nat :=
  (monthsByKey fl).filter (fun m => !(segGroup fl m r).isEmpty)

/-- The RdPu sequential palette (`px.colors.sequential.RdPu`). -/
def rdpu : List String :=
  ["rgb(255,247,243)", "rgb(253,224,221)", "rgb(252,197,192)",
   "rgb(250,159,181)", "rgb(247,104,161)", "rgb(221,52,151)",
   "rgb(174,1,126)", "rgb(122,1,119)", "rgb(73,0,106)"]

/-- `rating_colors` (src/app.py lines 526-533). -/
def rating_colors (label : String) : String :=
  if label = "Unrated" then rdpu.getD 1 ""
  else if label = "1⭐" then rdpu.getD 2 ""
  else if label = "2⭐" then rdpu.getD 3 ""
  else if label = "3⭐" then rdpu.getD 5 ""
  else if label = "4⭐" then rdpu.getD 7 ""
  else if label = "5⭐" then rdpu.getD 8 ""
  else ""

/-- `legend_labels` (line 534): the fixed, closed set of 6 rating buckets. -/
def legend_labels : List String :=
  ["Unrated", "1⭐", "2⭐", "3⭐", "4⭐", "5⭐"]

/-- The tooltip payload carried in `customdata` (lines 557-566). -/
structure SegData where
  month : Nat
  pages : Nat
  monthPages : Nat
  books : String
  label : String
deriving DecidableEq

/-- One `add_bar` trace (lines 539-582): either the zero-width legend
placeholder for an absent rating, or the real bars of one rating. -/
structure Trace where
  name : String
  xs : List (Option ℚ)
  ys : List (Option ℚ)
  barWidths : List ℚ
  color : String
  showlegend : Bool
  hoverSkip : Bool
  customdata : List SegData
deriving DecidableEq

/-- Builds the trace of one legend label, embedding the loop body of
src/app.py lines 539-582. -/
def mkTrace (fl : List Book) (label : String) : Trace :=
  let ms := subMonths fl label
  if ms.isEmpty then
    { name := label, xs := [none], ys := [none], barWidths := [0],
      color := rating_colors label, showlegend := true, hoverSkip := true,
      customdata := [] }
  else
    { name := label,
      xs := ms.map (fun m => some (xCenterOf fl m)),
      ys := ms.map (fun m => some (segHeight fl m label)),
      barWidths := ms.map (widthPropOf fl),
      color := rating_colors label, showlegend := true, hoverSkip := false,
      customdata := ms.map (fun m =>
        { month := m, pages := segPages fl m label,
          monthPages := monthPages fl m, books := booksText fl m label,
          label := label }) }

/-- The declarative scene handed to the rendering collaborator: figure
title, axis visibility, bar traces, and the x tick positions/labels. -/
structure Scene where
  title : String
  axesVisible : Bool
  traces : List Trace
  tickvals : List ℚ
  ticktext : List Nat
deriving DecidableEq

/-- The "no data in range" placeholder figure of src/app.py lines 457-464:
no traces, axes hidden, explanatory title. -/
def emptyScene (low high : ℤ) : Scene :=
  { title := "No books between " ++ toString low ++ " and " ++ toString high ++ " pages",
    axesVisible := false, traces := [], tickvals := [], ticktext := [] }

/-- Callback 2 of src/app.py (`update_marimekko`, lines 448-612): rebuild the
Marimekko scene from the slider range alone. -/
def update_marimekko (l : List Book) (low high : ℤ) : Scene :=
  let df_range := rangeFilter l low high
  if df_range.isEmpty then emptyScene low high
  else
    { title := "How My 2025 Reading Time Is Distributed Across Months and Ratings",
      axesVisible := true,
      traces := legend_labels.map (mkTrace df_range),
      tickvals := (month_totals_of df_range).map (fun row => row.xCenter),
      ticktext := (month_totals_of df_range).map (fun row => row.key) }

/-- The mutable state of the running app: the two slider bounds, the retained
`clickData` of the `dcc.Graph`, the `selection-store` data, and the two
published outputs. -/
structure AppState where
  low : ℤ
  high : ℤ
  clickData : Option (List ClickPoint)
  stored : Option Selection
  tableRows : List TableRow
  scene : Scene
deriving DecidableEq

/-- The two event kinds the rendering collaborator can emit. -/
inductive Event where
  | rangeChanged (low high : ℤ) : Event
  | segmentClicked (p : ClickPoint) : Event
deriving DecidableEq

/-- Fires callback 1 with the current values of its Input/State props. -/
def stepTable (ds : List Book) (s : AppState) : AppState :=
  let r := update_table ds s.low s.high s.clickData s.stored
  { s with tableRows := r.1, stored := r.2 }

/-- One Dash event dispatch.  A slider change updates the range and fires
both callbacks (callback 1 sees the *retained* click data); a segment click
sets `clickData` and fires only callback 1, whose sole Input besides the
slider is `clickData` (the figure is not an Output of a click). -/
def step (ds : List Book) (s : AppState) : Event → AppState
  | Event.rangeChanged l h =>
      let s1 : AppState := { s with low := l, high := h }
      let s2 : AppState := { s1 with scene := update_marimekko ds l h }
      stepTable ds s2
  | Event.segmentClicked p =>
      stepTable ds { s with clickData := some [p] }

/-- The startup state: full table, no click, no selection, slider spanning
the whole dataset (so the initial figure equals `update_marimekko` on the
full range). -/
def initState (ds : List Book) (low high : ℤ) : AppState :=
  { low := low, high := high, clickData := none, stored := none,
    tableRows := ds.map toRow, scene := update_marimekko ds low high }

/-- Runs a sequence of UI events. -/
def run (ds : List Book) (s : AppState) : List Event → AppState
  | [] => s
  | e :: es => run ds (step ds s e) es

/-- Concrete row: a 300-page, 5-star book added on day 35 (month key 1). -/
def bookA : Book :=
  { title := "A", author := "aa", dateAdded := 35, rating := some 5, pages := 300 }

/-- Concrete row: a 100-page, 3-star book added on day 70 (month key 2). -/
def bookB : Book :=
  { title := "B", author := "bb", dateAdded := 70, rating := some 3, pages := 100 }

/-- Concrete row: a second month-1 book, 100 pages, 3 stars, day 36. -/
def bookC : Book :=
  { title := "C", author := "cc", dateAdded := 36, rating := some 3, pages := 100 }

/-- Concrete row: a zero-page book (the data model allows `pages = 0`). -/
def zbook : Book :=
  { title := "Z", author := "zz", dateAdded := 35, rating := some 5, pages := 0 }

/-- Concrete row: a 0-rated book (0 is the sentinel for "unrated"). -/
def zrbook : Book :=
  { title := "R", author := "rr", dateAdded := 35, rating := some 0, pages := 200 }

/-- The two-book dataset used to exhibit the range-event behaviour of the
selection store. -/
def c1ds : List Book := preprocess [bookA, bookB]

/-- State after starting on range [0, 1000] and clicking B's segment
(month 2, label "3⭐"): the pair is selected. -/
def c1s1 : AppState :=
  run c1ds (initState c1ds 0 1000)
    [Event.segmentClicked { month := 2, ratingLabel := "3⭐" }]

/-- State after then narrowing the range to [250, 1000] — a pure
`PageRange` event; the new range excludes every record of the selected
(month 2, "3⭐") pair. -/
def c1s2 : AppState := step c1ds c1s1 (Event.rangeChanged 250 1000)

/-- A concrete non-integer rational rating value, 7/2. -/
def q35 : ℚ := { num := 7, den := 2, den_nz := by decide, reduced := by norm_num }

theorem mem_keyList_of_mem {κ : Type} [DecidableEq κ] (key : Book → κ)
    {b : Book} {l : List Book} (h : b ∈ l) : key b ∈ keyList key l := by
  induction l with
  | nil => cases h
  | cons a l ih =>
    rcases List.mem_cons.mp h with h1 | h2
    · subst h1
      by_cases hk : key b ∈ keyList key l
      · simp only [keyList, if_pos hk]
        exact hk
      · simp [keyList, hk]
    · by_cases hk : key a ∈ keyList key l
      · simpa [keyList, hk] using ih h2
      · simp only [keyList, if_neg hk, List.mem_cons]
        exact Or.inr (ih h2)

theorem keyList_nodup {κ : Type} [DecidableEq κ] (key : Book → κ)
    (l : List Book) : (keyList key l).Nodup := by
  induction l with
  | nil => exact List.nodup_nil
  | cons a l ih =>
    by_cases hk : key a ∈ keyList key l
    · simpa [keyList, hk] using ih
    · simp only [keyList, if_neg hk]
      exact List.nodup_cons.mpr ⟨hk, ih⟩

theorem filter_key_nil {κ : Type} [DecidableEq κ] (key : Book → κ)
    {k : κ} {l : List Book} (h : k ∉ keyList key l) :
    l.filter (fun a => decide (key a = k)) = [] := by
  refine List.filter_eq_nil_iff.mpr (fun a ha => ?_)
  simp only [decide_eq_true_eq]
  intro hk
  exact h (hk ▸ mem_keyList_of_mem key ha)

theorem sum_map_ite_of_mem {κ : Type} [DecidableEq κ] (g : κ → ℕ) (x : ℕ)
    (k0 : κ) :
    ∀ ks : List κ, ks.Nodup → k0 ∈ ks →
      (ks.map (fun k => if k0 = k then x + g k else g k)).sum = x + (ks.map g).sum := by
  intro ks
  induction ks with
  | nil => intro _ h; cases h
  | cons k ks ih =>
    intro hnd hmem
    rcases List.mem_cons.mp hmem with h1 | h2
    · subst h1
      have hnot : k0 ∉ ks := (List.nodup_cons.mp hnd).1
      have hmap : ks.map (fun k => if k0 = k then x + g k else g k) = ks.map g :=
        List.map_congr_left (fun a ha => if_neg (fun he : k0 = a => hnot (he ▸ ha)))
      simp only [List.map_cons, List.sum_cons, hmap, if_true]
      ring
    · have hne : k0 ≠ k := fun he => (List.nodup_cons.mp hnd).1 (he ▸ h2)
      simp only [List.map_cons, List.sum_cons, if_neg hne]
      rw [ih (List.nodup_cons.mp hnd).2 h2]
      ring

theorem sum_fiber {κ : Type} [DecidableEq κ] (key : Book → κ) (f : Book → ℕ)
    (l : List Book) :
    ((keyList key l).map
      (fun k => ((l.filter (fun a => decide (key a = k))).map f).sum)).sum
      = (l.map f).sum := by
  induction l with
  | nil => rfl
  | cons b l ih =>
    have hfil : ∀ k : κ, (b :: l).filter (fun a => decide (key a = k))
        = if key b = k then b :: l.filter (fun a => decide (key a = k))
          else l.filter (fun a => decide (key a = k)) := by
      intro k
      by_cases h : key b = k <;> simp [List.filter_cons, h]
    by_cases hb : key b ∈ keyList key l
    · have hk : keyList key (b :: l) = keyList key l := by simp [keyList, hb]
      rw [hk]
      have hcongr : (keyList key l).map
            (fun k => (((b :: l).filter (fun a => decide (key a = k))).map f).sum)
          = (keyList key l).map
            (fun k => if key b = k
              then f b + ((l.filter (fun a => decide (key a = k))).map f).sum
              else ((l.filter (fun a => decide (key a = k))).map f).sum) := by
        refine List.map_congr_left (fun k _ => ?_)
        rw [hfil k]
        by_cases h : key b = k <;> simp [h]
      rw [hcongr,
        sum_map_ite_of_mem
          (fun k => ((l.filter (fun a => decide (key a = k))).map f).sum)
          (f b) (key b) (keyList key l) (keyList_nodup key l) hb,
        ih]
      simp
    · have hk : keyList key (b :: l) = key b :: keyList key l := by
        simp [keyList, hb]
      rw [hk]
      simp only [List.map_cons, List.sum_cons]
      have h1 : (((b :: l).filter (fun a => decide (key a = key b))).map f).sum
          = f b + ((l.filter (fun a => decide (key a = key b))).map f).sum := by
        rw [hfil (key b), if_pos rfl]
        simp
      have h2 : l.filter (fun a => decide (key a = key b)) = [] :=
        filter_key_nil key hb
      have h3 : (keyList key l).map
            (fun k => (((b :: l).filter (fun a => decide (key a = k))).map f).sum)
          = (keyList key l).map
            (fun k => ((l.filter (fun a => decide (key a = k))).map f).sum) := by
        refine List.map_congr_left (fun k hkmem => ?_)
        rw [hfil k, if_neg (fun he : key b = k => hb (he ▸ hkmem))]
      rw [h1, h2, h3, ih]
      simp

theorem sum_cast_div {κ : Type} (P : κ → ℕ) (T : ℕ) (hT : T ≠ 0)
    (ks : List κ) (hsum : (ks.map P).sum = T) :
    (ks.map (fun k => (P k : ℚ) / (T : ℚ))).sum = 1 := by
  have h1 : ks.map (fun k => (P k : ℚ) / (T : ℚ))
      = ks.map (fun k => (P k : ℚ) * ((T : ℚ))⁻¹) := by
    simp [div_eq_mul_inv]
  rw [h1, List.sum_map_mul_right]
  have h2 : (ks.map (fun k => ((P k : ℕ) : ℚ))).sum = ((ks.map P).sum : ℚ) := by
    rw [Nat.cast_list_sum, List.map_map]
    rfl
  rw [h2, hsum]
  exact mul_inv_cancel₀ (Nat.cast_ne_zero.mpr hT)

theorem buildRows_length (fl : List Book) (ms : List Nat) :
    ∀ a : ℚ, (buildRows fl a ms).length = ms.length := by
  induction ms with
  | nil => intro a; rfl
  | cons m ms ih => intro a; simp [buildRows, ih]

theorem buildRows_map_widthProp (fl : List Book) (ms : List Nat) :
    ∀ a : ℚ, (buildRows fl a ms).map (fun row => row.widthProp)
      = ms.map (widthOf fl) := by
  induction ms with
  | nil => intro a; rfl
  | cons m ms ih => intro a; simp [buildRows, ih]

theorem buildRows_map_key (fl : List Book) (ms : List Nat) :
    ∀ a : ℚ, (buildRows fl a ms).map (fun row => row.key) = ms := by
  induction ms with
  | nil => intro a; rfl
  | cons m ms ih => intro a; simp [buildRows, ih]

theorem buildRows_get_xStart (fl : List Book) (ms : List Nat) :
    ∀ (a : ℚ) (i : Nat) (h : i < (buildRows fl a ms).length),
      ((buildRows fl a ms).get ⟨i, h⟩).xStart
        = a + ((ms.take i).map (widthOf fl)).sum := by
  induction ms with
  | nil => intro a i h; simp [buildRows] at h
  | cons m ms ih =>
    intro a i h
    cases i with
    | zero => simp [buildRows]
    | succ i =>
      have h' : i < (buildRows fl (a + widthOf fl m) ms).length := by
        simpa [buildRows] using h
      have hg : ((buildRows fl a (m :: ms)).get ⟨i + 1, h⟩)
          = ((buildRows fl (a + widthOf fl m) ms).get ⟨i, h'⟩) := rfl
      rw [hg, ih]
      simp [List.take_succ_cons, add_assoc]

theorem buildRows_get_xEnd (fl : List Book) (ms : List Nat) :
    ∀ (a : ℚ) (i : Nat) (h : i < (buildRows fl a ms).length),
      ((buildRows fl a ms).get ⟨i, h⟩).xEnd
        = a + ((ms.take (i + 1)).map (widthOf fl)).sum := by
  induction ms with
  | nil => intro a i h; simp [buildRows] at h
  | cons m ms ih =>
    intro a i h
    cases i with
    | zero => simp [buildRows]
    | succ i =>
      have h' : i < (buildRows fl (a + widthOf fl m) ms).length := by
        simpa [buildRows] using h
      have hg : ((buildRows fl a (m :: ms)).get ⟨i + 1, h⟩)
          = ((buildRows fl (a + widthOf fl m) ms).get ⟨i, h'⟩) := rfl
      rw [hg, ih]
      simp [List.take_succ_cons, add_assoc]

theorem insertLe_head_le (le : Nat → Nat → Bool)
    (htot : ∀ a b, le a b = true ∨ le b a = true) (k m : Nat)
    (ks : List Nat) (hk : ∀ b ∈ ks.head?, le k b = true)
    (hkm : le m k = false) :
    ∀ b ∈ (insertLe le m ks).head?, le k b = true := by
  cases ks with
  | nil =>
    intro b hb
    simp only [insertLe, List.head?] at hb
    cases hb
    rcases htot m k with h | h
    · rw [hkm] at h; cases h
    · exact h
  | cons k' ks =>
    intro b hb
    by_cases hmk : le m k' = true
    · simp only [insertLe, if_pos hmk, List.head?] at hb
      cases hb
      rcases htot m k with h | h
      · rw [hkm] at h; cases h
      · exact h
    · simp only [insertLe, if_neg hmk, List.head?] at hb
      cases hb
      exact hk k' rfl

theorem chain_insertLe (le : Nat → Nat → Bool)
    (htot : ∀ a b, le a b = true ∨ le b a = true) (m : Nat) :
    ∀ ks : List Nat, List.Chain' (fun a b => le a b = true) ks →
      List.Chain' (fun a b => le a b = true) (insertLe le m ks) := by
  intro ks
  induction ks with
  | nil => intro _; simp [insertLe]
  | cons k ks ih =>
    intro h
    by_cases hmk : le m k = true
    · simp only [insertLe, if_pos hmk]
      exact List.Chain'.cons hmk h
    · simp only [insertLe, if_neg hmk]
      refine List.chain'_cons'.mpr ⟨?_, ih (List.Chain'.tail h)⟩
      refine insertLe_head_le le htot k m ks ?_ (by simpa using hmk)
      intro b hb
      cases ks with
      | nil => cases hb
      | cons k' ks' =>
        simp only [List.head?] at hb
        cases hb
        exact (List.chain'_cons.mp h).1

theorem chain_sortLe (le : Nat → Nat → Bool)
    (htot : ∀ a b, le a b = true ∨ le b a = true) :
    ∀ ks : List Nat, List.Chain' (fun a b => le a b = true) (sortLe le ks) := by
  intro ks
  induction ks with
  | nil => simp [sortLe]
  | cons k ks ih => exact chain_insertLe le htot k (sortLe le ks) ih

theorem digitChar_ne_dot (n : Nat) : Nat.digitChar n ≠ Char.ofNat 46 := by
  match n with
  | 0 => decide
  | 1 => decide
  | 2 => decide
  | 3 => decide
  | 4 => decide
  | 5 => decide
  | 6 => decide
  | 7 => decide
  | 8 => decide
  | 9 => decide
  | 10 => decide
  | 11 => decide
  | 12 => decide
  | 13 => decide
  | 14 => decide
  | 15 => decide
  | n + 16 =>
    have h : Nat.digitChar (n + 16) = Char.ofNat 42 := by
      unfold Nat.digitChar
      repeat rw [if_neg (by omega)]
    rw [h]
    decide

theorem toDigitsCore_ne_dot :
    ∀ (fuel n : Nat) (ds : List Char), (∀ c ∈ ds, c ≠ Char.ofNat 46) →
      ∀ c ∈ Nat.toDigitsCore 10 fuel n ds, c ≠ Char.ofNat 46 := by
  intro fuel
  induction fuel with
  | zero =>
    intro n ds hds c hc
    exact hds c hc
  | succ f ih =>
    intro n ds hds c hc
    rw [Nat.toDigitsCore] at hc
    by_cases hz : n / 10 = 0
    · rw [if_pos hz] at hc
      rcases List.mem_cons.mp hc with h1 | h2
      · exact h1 ▸ digitChar_ne_dot (n % 10)
      · exact hds c h2
    · rw [if_neg hz] at hc
      refine ih (n / 10) (Nat.digitChar (n % 10) :: ds) ?_ c hc
      intro d hd
      rcases List.mem_cons.mp hd with h1 | h2
      · exact h1 ▸ digitChar_ne_dot (n % 10)
      · exact hds d h2

theorem natRepr_ne_dot (n : Nat) : ∀ c ∈ (Nat.repr n).data, c ≠ Char.ofNat 46 := by
  intro c hc
  have h : (Nat.repr n).data = Nat.toDigitsCore 10 (n + 1) n [] := rfl
  rw [h] at hc
  exact toDigitsCore_ne_dot (n + 1) n [] (by intro d hd; cases hd) c hc

theorem intToString_ne_dot (n : ℤ) : ∀ c ∈ (toString n).data, c ≠ Char.ofNat 46 := by
  cases n with
  | ofNat m =>
    intro c hc
    exact natRepr_ne_dot m c hc
  | negSucc m =>
    intro c hc
    have h : (toString (Int.negSucc m)).data
        = Char.ofNat 45 :: (Nat.repr (m + 1)).data := rfl
    rw [h] at hc
    rcases List.mem_cons.mp hc with h1 | h2
    · rw [h1]; decide
    · exact natRepr_ne_dot (m + 1) c h2

/-- C2: for every page range and every segment (m, r), a first click on
(m, r) from the Unselected state selects it, and a second identical click
returns to Unselected and yields exactly the table rows that the range
filter alone produces (src/app.py lines 404-441). -/
theorem c2_toggle_idempotence (ds : List Book) (low high : ℤ) (m : Nat) (r : String) :
    (update_table ds low high (some [{ month := m, ratingLabel := r }]) none).2
      = some { month := m, rating := r } ∧
    update_table ds low high (some [{ month := m, ratingLabel := r }])
        (update_table ds low high (some [{ month := m, ratingLabel := r }]) none).2
      = ((rangeFilter ds low high).map toRow, none) := by
  constructor
  · simp [update_table]
  · simp [update_table]

/-- C10: when the stored selection is null but a click datum for (m, r) is
supplied — as happens when a range change re-fires `update_table` after the
selection was toggled off — the handler treats the call as a fresh
selection: rows are restricted to (m, r) within the range and the stored
selection becomes (m, r) (src/app.py lines 403-441). -/
theorem c10_stale_click_reselects (ds : List Book) (low high : ℤ) (m : Nat)
    (r : String) (rest : List ClickPoint) :
    update_table ds low high (some ({ month := m, ratingLabel := r } :: rest)) none
      = (((rangeFilter ds low high).filter (fun b =>
            decide (monthKey b = m) && decide (ratingLabelOf b = r))).map toRow,
         some { month := m, rating := r }) := by
  simp [update_table]

/-- C8: a segment click leaves the chart scene unchanged (the figure is only
an Output of the slider callback, src/app.py lines 444-447), while a range
change recomputes and republishes both the scene and the table rows
together (lines 375-381 and 444-448). -/
theorem c8_scene_frame (ds : List Book) (s : AppState) (p : ClickPoint)
    (l h : ℤ) :
    (step ds s (Event.segmentClicked p)).scene = s.scene ∧
    (step ds s (Event.rangeChanged l h)).scene = update_marimekko ds l h ∧
    (step ds s (Event.rangeChanged l h)).tableRows
      = (update_table ds l h s.clickData s.stored).1 ∧
    (step ds s (Event.rangeChanged l h)).stored
      = (update_table ds l h s.clickData s.stored).2 ∧
    (step ds s (Event.segmentClicked p)).tableRows
      = (update_table ds s.low s.high (some [p]) s.stored).1 :=
  ⟨rfl, rfl, rfl, rfl, rfl⟩

/-- C7: the record filter returns exactly the records with
low ≤ pages ≤ high (inclusive on both ends); it is a pure function of its
arguments, and a range matching no record yields the empty list rather than
an error (src/app.py lines 386-388 and 452-454). -/
theorem c7_record_filter_exact (l : List Book) (low high : ℤ) (b : Book) :
    (b ∈ rangeFilter l low high
      ↔ b ∈ l ∧ low ≤ (b.pages : ℤ) ∧ (b.pages : ℤ) ≤ high) ∧
    ((∀ a ∈ l, (a.pages : ℤ) < low ∨ high < (a.pages : ℤ)) →
      rangeFilter l low high = []) := by
  constructor
  · simp [rangeFilter, List.mem_filter, and_assoc]
  · intro h
    refine List.filter_eq_nil_iff.mpr (fun a ha => ?_)
    have := h a ha
    simp only [Bool.and_eq_true, decide_eq_true_eq, not_and]
    omega

/-- C3: when the range filter yields no records, the chart handler returns
the explicit placeholder scene (no traces, axes hidden, explanatory title,
built before any aggregation or division by the grand total — the
early-return at src/app.py lines 457-464 precedes lines 467-523), and the
table handler returns an empty row list whatever the click and selection
state. -/
theorem c3_empty_range_placeholder (l : List Book) (low high : ℤ)
    (cd : Option (List ClickPoint)) (st : Option Selection)
    (h : rangeFilter l low high = []) :
    update_marimekko l low high = emptyScene low high ∧
    (update_table l low high cd st).1 = [] := by
  constructor
  · simp [update_marimekko, h]
  · rcases cd with _ | cl
    · simp [update_table, h]
    · rcases cl with _ | ⟨p, ps⟩
      · simp [update_table, h]
      · by_cases hs : st = some { month := p.month, rating := p.ratingLabel }
        · simp [update_table, h, hs]
        · simp [update_table, h, hs]

/-- C6: a rating of 0 is normalized to null before labelling and before any
grouping (src/app.py line 24 precedes every groupby), the normalized record
labels as "Unrated" exactly like a null-rated one, and every downstream
output (table callback and chart callback) is identical for a 0-rated and a
null-rated record. -/
theorem c6_zero_rating_normalization (pre post : List Book) (b : Book)
    (low high : ℤ) (cd : Option (List ClickPoint)) (st : Option Selection)
    (hb : b.rating = some 0) :
    ratingLabelOf (normalizeBook b) = "Unrated" ∧
    normalizeBook b = normalizeBook { b with rating := none } ∧
    preprocess (pre ++ b :: post)
      = preprocess (pre ++ { b with rating := none } :: post) ∧
    update_table (preprocess (pre ++ b :: post)) low high cd st
      = update_table (preprocess (pre ++ { b with rating := none } :: post)) low high cd st ∧
    update_marimekko (preprocess (pre ++ b :: post)) low high
      = update_marimekko (preprocess (pre ++ { b with rating := none } :: post)) low high := by
  have h1 : normalizeBook b = { b with rating := none } := by
    simp [normalizeBook, hb]
  have h2 : normalizeBook { b with rating := none } = { b with rating := none } := by
    simp [normalizeBook]
  have h3 : preprocess (pre ++ b :: post)
      = preprocess (pre ++ { b with rating := none } :: post) := by
    simp [preprocess, h1, h2]
  exact ⟨by rw [h1]; rfl, h1.trans h2.symm, h3, by rw [h3], by rw [h3]⟩

/-- C4 (amended): for every filtered record set and every month present in
it whose total page count is positive, the heights of that month's segments
(`pages / month_pages`, src/app.py lines 508-523) sum to exactly 1.  (The
positivity hypothesis is forced: a month consisting only of zero-page
records makes the code divide by a zero month total, see the
counterexample.) -/
theorem c4_heights_sum_one (l : List Book) (low high : ℤ) (fl : List Book)
    (_hfl : fl = rangeFilter l low high) (m : Nat)
    (_hm : m ∈ monthKeys fl) (hp : 0 < monthPages fl m) :
    ((labelKeys (monthGroup fl m)).map (fun r => segHeight fl m r)).sum = 1 := by
  have hsum : ((labelKeys (monthGroup fl m)).map (fun r => segPages fl m r)).sum
      = monthPages fl m :=
    sum_fiber ratingLabelOf (fun b => b.pages) (monthGroup fl m)
  exact sum_cast_div (fun r => segPages fl m r) (monthPages fl m)
    (Nat.pos_iff_ne_zero.mp hp) (labelKeys (monthGroup fl m)) hsum

/-- C5 (amended): for every filtered record set whose grand page total is
positive, the month width proportions sum to exactly 1, the `month_totals`
rows are in first-date-ascending order, and the xStart/xEnd intervals
partition [0, 1]: the first xStart is 0, each xStart equals the previous
row's xEnd, and the last xEnd is 1 (src/app.py lines 484-496).  (The
positivity hypothesis is forced: an all-zero-pages range makes the code
divide by a zero grand total, see the counterexample.) -/
theorem c5_partition (l : List Book) (low high : ℤ) (fl : List Book)
    (_hfl : fl = rangeFilter l low high) (hg : 0 < grandTotalN fl) :
    ((month_totals_of fl).map (fun row => row.widthProp)).sum = 1 ∧
    List.Chain' (fun p q => firstDate fl p.key ≤ firstDate fl q.key)
      (month_totals_of fl) ∧
    (∀ h0 : 0 < (month_totals_of fl).length,
      ((month_totals_of fl).get ⟨0, h0⟩).xStart = 0) ∧
    (∀ (i : Nat) (h1 : i + 1 < (month_totals_of fl).length),
      ((month_totals_of fl).get ⟨i + 1, h1⟩).xStart
        = ((month_totals_of fl).get ⟨i, Nat.lt_of_succ_lt h1⟩).xEnd) ∧
    (∀ hlast : (month_totals_of fl).length - 1 < (month_totals_of fl).length,
      ((month_totals_of fl).get
        ⟨(month_totals_of fl).length - 1, hlast⟩).xEnd = 1) := by
  have hws : ((sortedMonths fl).map (widthOf fl)).sum = 1 :=
    sum_cast_div (monthPages fl) (grandTotalN fl)
      (Nat.pos_iff_ne_zero.mp hg) (sortedMonths fl) rfl
  refine ⟨?_, ?_, ?_, ?_, ?_⟩
  · rw [month_totals_of, buildRows_map_widthProp]
    exact hws
  · have htot : ∀ a b : Nat,
        (decide (firstDate fl a ≤ firstDate fl b)) = true ∨
        (decide (firstDate fl b ≤ firstDate fl a)) = true := by
      intro a b
      rcases Nat.le_total (firstDate fl a) (firstDate fl b) with h | h
      · left; simpa using h
      · right; simpa using h
    have hch := chain_sortLe
      (fun a b => decide (firstDate fl a ≤ firstDate fl b)) htot (monthKeys fl)
    have hkeys : (month_totals_of fl).map (fun row => row.key) = sortedMonths fl :=
      buildRows_map_key fl (sortedMonths fl) 0
    have hch2 : List.Chain' (fun a b : Nat => firstDate fl a ≤ firstDate fl b)
        ((month_totals_of fl).map (fun row => row.key)) := by
      rw [hkeys]
      exact hch.imp (fun a b hd => by simpa using hd)
    exact (List.chain'_map (fun row : MonthRow => row.key)).mp hch2
  · intro h0
    have h0' : 0 < (buildRows fl 0 (sortedMonths fl)).length := h0
    have := buildRows_get_xStart fl (sortedMonths fl) 0 0 h0'
    simpa using this
  · intro i h1
    have h1' : i + 1 < (buildRows fl 0 (sortedMonths fl)).length := h1
    have ha := buildRows_get_xStart fl (sortedMonths fl) 0 (i + 1) h1'
    have hb := buildRows_get_xEnd fl (sortedMonths fl) 0 i (Nat.lt_of_succ_lt h1')
    show ((buildRows fl 0 (sortedMonths fl)).get ⟨i + 1, h1'⟩).xStart
        = ((buildRows fl 0 (sortedMonths fl)).get ⟨i, Nat.lt_of_succ_lt h1'⟩).xEnd
    rw [ha, hb]
  · intro hlast
    have hlast' : (buildRows fl 0 (sortedMonths fl)).length - 1
        < (buildRows fl 0 (sortedMonths fl)).length := hlast
    have hpos : 0 < (buildRows fl 0 (sortedMonths fl)).length := by omega
    have he := buildRows_get_xEnd fl (sortedMonths fl) 0
      ((buildRows fl 0 (sortedMonths fl)).length - 1) hlast'
    have hlen : (buildRows fl 0 (sortedMonths fl)).length
        = (sortedMonths fl).length := buildRows_length fl (sortedMonths fl) 0
    have hsucc : (buildRows fl 0 (sortedMonths fl)).length - 1 + 1
        = (sortedMonths fl).length := by omega
    show ((buildRows fl 0 (sortedMonths fl)).get
        ⟨(buildRows fl 0 (sortedMonths fl)).length - 1, hlast'⟩).xEnd = 1
    rw [he, hsucc, List.take_length, hws]
    simp


/-- C9: the rating-label function is total by construction (it is a Lean
function covering every constructor of `RVal`, embedding the
`try/except` of src/app.py lines 61-70): null/NaN and non-convertible
values map to "Unrated"; an integer-valued number renders as its integer
digits followed by ⭐ with no decimal point anywhere in the digits; a
non-integer number renders as its one-decimal form followed by ⭐. -/
theorem c9_rating_label_total (v : RVal) :
    (v = RVal.na ∨ v = RVal.nonNumeric → rating_label_from_value v = "Unrated") ∧
    (∀ q : ℚ, v = RVal.num q → q.den = 1 →
      rating_label_from_value v = toString q.num ++ "⭐" ∧
      ∀ c ∈ (toString q.num).data, c ≠ Char.ofNat 46) ∧
    (∀ q : ℚ, v = RVal.num q → q.den ≠ 1 →
      rating_label_from_value v = formatOneDecimal q ++ "⭐") := by
  refine ⟨?_, ?_, ?_⟩
  · rintro (rfl | rfl) <;> rfl
  · rintro q rfl hq
    refine ⟨?_, intToString_ne_dot q.num⟩
    simp [rating_label_from_value, hq]
  · rintro q rfl hq
    simp [rating_label_from_value, hq]

theorem c9_rating_label_total_witness :
    rating_label_from_value RVal.na = "Unrated" ∧
    rating_label_from_value (RVal.num 5) = toString (5 : ℚ).num ++ "⭐" ∧
    rating_label_from_value (RVal.num q35) = formatOneDecimal q35 ++ "⭐" :=
  ⟨(c9_rating_label_total RVal.na).1 (Or.inl rfl),
   ((c9_rating_label_total (RVal.num 5)).2.1 5 rfl (by decide)).1,
   (c9_rating_label_total (RVal.num q35)).2.2 q35 rfl (by decide)⟩

/-- C1: evaluation of the code at a reachable failing state.  After clicking
segment (month 2, "3⭐") on range [0, 1000] the pair is stored; the next
event is a pure `PageRange` change to [250, 1000], under which the selected
pair has zero matching records.  The claim requires the stored selection to
stay `some (2, "3⭐")` and the table to become empty; the code instead
re-fires `update_table` with the retained `clickData`, which equals the
stored pair, so it *clears* the selection and returns the full range-only
row list (src/app.py lines 411-422 cannot distinguish a click from a slider
event). -/
theorem c1_range_event_toggles_selection :
    c1s1.stored = some { month := 2, rating := "3⭐" } ∧
    c1s2.stored = none ∧
    c1s2.tableRows = [toRow bookA] := by
  refine ⟨by decide, by decide, by decide⟩

theorem c4_zero_pages_counterexample :
    rangeFilter [zbook] 0 0 ≠ [] ∧
    1 ∈ monthKeys (rangeFilter [zbook] 0 0) ∧
    ((labelKeys (monthGroup (rangeFilter [zbook] 0 0) 1)).map
      (fun r => segHeight (rangeFilter [zbook] 0 0) 1 r)).sum = 0 ∧
    ((labelKeys (monthGroup (rangeFilter [zbook] 0 0) 1)).map
      (fun r => segHeight (rangeFilter [zbook] 0 0) 1 r)).sum ≠ 1 ∧
    1 / 1000000000
      < |((labelKeys (monthGroup (rangeFilter [zbook] 0 0) 1)).map
          (fun r => segHeight (rangeFilter [zbook] 0 0) 1 r)).sum - 1| := by
  have hlab : labelKeys (monthGroup (rangeFilter [zbook] 0 0) 1) = ["5⭐"] := by
    decide
  have hmp : monthPages (rangeFilter [zbook] 0 0) 1 = 0 := by decide
  have hseg : segHeight (rangeFilter [zbook] 0 0) 1 "5⭐" = 0 := by
    simp [segHeight, hmp]
  have hsum : ((labelKeys (monthGroup (rangeFilter [zbook] 0 0) 1)).map
      (fun r => segHeight (rangeFilter [zbook] 0 0) 1 r)).sum = 0 := by
    rw [hlab]
    simp [hseg]
  refine ⟨by decide, by decide, hsum, ?_, ?_⟩
  · rw [hsum]; norm_num
  · rw [hsum]; norm_num

theorem c5_zero_total_counterexample :
    rangeFilter [zbook] 0 0 ≠ [] ∧
    ((month_totals_of (rangeFilter [zbook] 0 0)).map
      (fun row => row.widthProp)).sum = 0 ∧
    ((month_totals_of (rangeFilter [zbook] 0 0)).map
      (fun row => row.widthProp)).sum ≠ 1 ∧
    1 / 1000000000
      < |((month_totals_of (rangeFilter [zbook] 0 0)).map
          (fun row => row.widthProp)).sum - 1| := by
  have hsm : sortedMonths (rangeFilter [zbook] 0 0) = [1] := by decide
  have hgt : grandTotalN (rangeFilter [zbook] 0 0) = 0 := by decide
  have hsum : ((month_totals_of (rangeFilter [zbook] 0 0)).map
      (fun row => row.widthProp)).sum = 0 := by
    show ((buildRows (rangeFilter [zbook] 0 0) 0
        (sortedMonths (rangeFilter [zbook] 0 0))).map
        (fun row => row.widthProp)).sum = 0
    rw [buildRows_map_widthProp, hsm]
    simp [widthOf, hgt]
  refine ⟨by decide, hsum, ?_, ?_⟩
  · rw [hsum]; norm_num
  · rw [hsum]; norm_num

theorem c3_empty_range_placeholder_witness :
    update_marimekko [bookA] 0 10 = emptyScene 0 10 ∧
    (update_table [bookA] 0 10 none none).1 = [] :=
  c3_empty_range_placeholder [bookA] 0 10 none none (by decide)

theorem c4_heights_sum_one_witness :
    1 ∈ monthKeys (rangeFilter [bookA, bookC] 0 1000) ∧
    0 < monthPages (rangeFilter [bookA, bookC] 0 1000) 1 ∧
    ((labelKeys (monthGroup (rangeFilter [bookA, bookC] 0 1000) 1)).map
      (fun r => segHeight (rangeFilter [bookA, bookC] 0 1000) 1 r)).sum = 1 :=
  ⟨by decide, by decide,
    c4_heights_sum_one [bookA, bookC] 0 1000
      (rangeFilter [bookA, bookC] 0 1000) rfl 1 (by decide) (by decide)⟩

theorem c5_partition_witness :
    0 < grandTotalN (rangeFilter (preprocess [bookA, bookB]) 0 1000) ∧
    ((month_totals_of (rangeFilter (preprocess [bookA, bookB]) 0 1000)).map
      (fun row => row.widthProp)).sum = 1 :=
  ⟨by decide,
    (c5_partition (preprocess [bookA, bookB]) 0 1000
      (rangeFilter (preprocess [bookA, bookB]) 0 1000) rfl (by decide)).1⟩

theorem c6_zero_rating_normalization_witness :
    ratingLabelOf (normalizeBook zrbook) = "Unrated" ∧
    normalizeBook zrbook = normalizeBook { zrbook with rating := none } ∧
    preprocess ([] ++ zrbook :: [])
      = preprocess ([] ++ { zrbook with rating := none } :: []) ∧
    update_table (preprocess ([] ++ zrbook :: [])) 0 1000 none none
      = update_table (preprocess ([] ++ { zrbook with rating := none } :: []))
          0 1000 none none ∧
    update_marimekko (preprocess ([] ++ zrbook :: [])) 0 1000
      = update_marimekko (preprocess ([] ++ { zrbook with rating := none } :: []))
          0 1000 :=
  c6_zero_rating_normalization [] [] zrbook 0 1000 none none rfl

theorem c7_record_filter_exact_witness :
    (bookA ∈ rangeFilter [bookA] 0 10
      ↔ bookA ∈ [bookA] ∧ (0 : ℤ) ≤ (bookA.pages : ℤ) ∧ (bookA.pages : ℤ) ≤ 10) ∧
    rangeFilter [bookA] 0 10 = [] :=
  ⟨(c7_record_filter_exact [bookA] 0 10 bookA).1,
   (c7_record_filter_exact [bookA] 0 10 bookA).2 (by decide)⟩
